import Mathlib

/-!
# Shallow embedding of the easyflow-backend websocket fan-out core

This file embeds, as executable Lean definitions, the parts of the
`pkg/websockets` package (`client.go`, `room.go`, the hub in
`src/unnamed/part_002`) that the verified claims are about, and proves or
refutes each claim against that embedding.

Conventions:
* Go maps keyed by strings become association lists / key lists; map
  `delete` becomes `List.filter`, map insert becomes key-preserving update.
* The atomic `int32` client counter becomes `Int` (its values stay far from
  the 32-bit range in every statement below, so wrap-around is irrelevant).
* Channels with buffer 256 become a `List` of pending messages plus a
  `closed` flag; a non-blocking send succeeds iff the list is shorter than
  the capacity.
* `sync.Once` becomes a `Bool` guard carried in the state.
-/

namespace EasyFlow

/-- Struct `clientMessage` (client.go lines 47-51): the inbound wire shape
with fields room, data, iv. -/
structure ClientMessage where
  room : String
  data : String
  iv : String
deriving DecidableEq, Repr

/-- Struct `message` (client.go lines 53-56): `clientMessage` plus
`sender_id`, the shape published to the bus and delivered to clients. The
Go struct embeds `clientMessage`; we flatten the three fields. -/
structure Message where
  room : String
  data : String
  iv : String
  senderID : String
deriving DecidableEq, Repr

/-- Struct `errorMessage` (client.go lines 58-61): the error frame with
fields error and details written back to a client. -/
structure ErrorMessage where
  error : String
  details : String
deriving DecidableEq, Repr

/-- Connection states (client.go lines 32-38). -/
inductive ConnState where
  | connected
  | disconnecting
  | disconnected
  | reconnecting
  | error
deriving DecidableEq, Repr

/-- The send channel `make(chan message, 256)` (client.go line 95): its
buffered contents in FIFO order and whether `close` has been called. -/
structure SendQueue where
  buffer : List Message
  closed : Bool
deriving DecidableEq, Repr

/-- Capacity of the send channel (client.go line 95). -/
def sendQueueCap : Nat := 256

/-- Method `Client.setState` (client.go lines 239-250): under the state mutex,
refuse any transition once the state is `disconnecting`, `disconnected` or
`error`; otherwise install the new state. Returns the new state paired with
the `Bool` the Go method returns. -/
def setState (s : ConnState) (newState : ConnState) : ConnState × Bool :=
  if s = .disconnecting ∨ s = .disconnected ∨ s = .error then
    (s, false)
  else
    (newState, true)

/-- The send-channel closing step of `cleanup` (client.go lines 590-598):

```go
select {
case _, ok := <-c.send:
    if ok { close(c.send) }
default:
    close(c.send)
}
```

Go select semantics: with a buffered value available the receive case is
ready and is chosen over `default`, the received value is discarded and
`ok` is true (buffered values read as `ok = true` even after a close), so
the channel is closed.  With an empty open channel the receive would block,
so `default` closes the channel.  With an empty closed channel the receive
is ready with `ok = false` and the close is skipped. -/
def closeSend (q : SendQueue) : SendQueue :=
  match q.buffer with
  | _ :: rest => { buffer := rest, closed := true }
  | [] => if q.closed then q else { q with closed := true }

/-- The per-client state that `cleanup` reads and writes.  `rooms = none`
models the map after `c.rooms = nil`; while `some ids` it holds the key set
of `c.rooms`.  `conn = false` models the nil-ed connection slot. -/
structure ClientState where
  state : ConnState
  send : SendQueue
  rooms : Option (List String)
  conn : Bool
  canceled : Bool
  cleanupDone : Bool
deriving DecidableEq, Repr

/-- A `Client` as `newClient` leaves it (client.go lines 93-108): state
`connected`, an open empty send channel, an (initially empty) rooms map,
a live connection. -/
def newClientState : ClientState :=
  { state := .connected
    send := { buffer := [], closed := false }
    rooms := some []
    conn := true
    canceled := false
    cleanupDone := false }

/-- The body of `Client.cleanup` (client.go lines 542-610) as a state
transformer, in the source's order: (1) cancel the context; (2)
`setState(stateDisconnecting)`; (3) take the connection out and nil its
slot (the best-effort close frame and socket close touch only the
extracted connection); (5) under the rooms lock remove the client from
every room and set `c.rooms = nil` (the effect on the rooms themselves is
modelled separately, see `removeClient` and `cleanupLockTrace`); (6) close
the send channel via `closeSend`; (8) `setState(stateDisconnected)`. -/
def cleanupBody (c : ClientState) : ClientState :=
  let c := { c with canceled := true }
  let c := { c with state := (setState c.state .disconnecting).1 }
  let c := { c with conn := false }
  let c := { c with rooms := none }
  let c := { c with send := closeSend c.send }
  { c with state := (setState c.state .disconnected).1 }

/-- Method `Client.cleanup` (client.go lines 540-611): the body runs under
`cleanupOnce.Do`, so it executes only on the first call; every later call
returns with the state untouched. -/
def cleanup (c : ClientState) : ClientState :=
  if c.cleanupDone then c else { cleanupBody c with cleanupDone := true }

/-!
## Room membership: addClient / removeClient (room.go lines 45-62)

The state a pair of calls touches: the key set of the room's map
`r.clients` (keyed by `client.payload.ID`), the room's `clientCount`
(`atomic.Int32`), the room's `shutdownStarted` flag, and the key set of the
one client's map `client.rooms` (keyed by room id).
-/

/-- The state read and written by `Room.addClient` and `Room.removeClient`
for one (room, client) pair. -/
structure RoomClientState where
  roomClients : List String
  clientCount : Int
  shutdownStarted : Bool
  clientRooms : List String
deriving DecidableEq, Repr

/-- Method `Room.addClient` (room.go lines 45-51): under the room's write
lock, `r.clients[client.payload.ID] = client` (map assignment: the key set
gains the key if absent), `client.rooms[r.id] = r`, and
`r.clientCount.Add(1)`.  The body contains no test of `shutdownStarted`:
the insertion happens whether or not the flag is set, and the counter is
incremented on every call, including calls whose key was already present. -/
def addClient (roomID clientKey : String) (s : RoomClientState) : RoomClientState :=
  { s with
    roomClients :=
      if clientKey ∈ s.roomClients then s.roomClients else s.roomClients ++ [clientKey]
    clientRooms :=
      if roomID ∈ s.clientRooms then s.clientRooms else s.clientRooms ++ [roomID]
    clientCount := s.clientCount + 1 }

/-- Method `Room.removeClient` (room.go lines 53-62): under the room's read
lock, `delete(r.clients, client.payload.ID)` (a no-op when the key is
absent), `r.clientCount.Add(-1)` unconditionally, then under the client's
rooms lock `delete(client.rooms, r.id)`.  The counter is decremented on
every call, whether or not the key was still present. -/
def removeClient (roomID clientKey : String) (s : RoomClientState) : RoomClientState :=
  { s with
    roomClients := s.roomClients.filter (fun k => k != clientKey)
    clientCount := s.clientCount - 1
    clientRooms := s.clientRooms.filter (fun k => k != roomID) }

/-!
## Broadcast fan-out (room.go lines 64-87)

`Room.broadcast` holds the room's read lock for the whole call, iterates
the client map, and for each client runs (in a semaphore-bounded goroutine,
all joined by `wg.Wait()` before the lock is released):

```go
select {
case client.send <- message:
default:
    r.removeClient(client)
}
```

The non-blocking send succeeds iff the client's buffered send channel
(capacity 256) has room.  The full-queue branch calls only
`r.removeClient(client)`; neither `broadcast` nor `removeClient` invokes
`client.cleanup()`, so an evicted client object is untouched apart from the
two map deletions and the counter.  The net effect on the room's client map
is captured below as a pair: the map after the call (clients with space,
each with the message appended to its queue) and the list of clients that
were passed to `removeClient` (returned exactly as they were). -/

/-- One entry of the room's client map as `broadcast` sees it: its key, the
buffered contents of its send channel, and whether `cleanup` has run for it
(the `cleanupOnce` guard), which `broadcast` never changes. -/
structure RoomClient where
  key : String
  queue : List Message
  cleanedUp : Bool
deriving DecidableEq, Repr

/-- Whether the non-blocking send `client.send <- message` succeeds: the
channel has capacity `sendQueueCap` and buffers `c.queue`. -/
def hasSpace (c : RoomClient) : Bool := c.queue.length < sendQueueCap

/-- Method `Room.broadcast` (room.go lines 64-87): first component, the
room's client map after the call; second, the clients evicted via
`removeClient`, each returned unchanged (in particular not cleaned up). -/
def broadcast (msg : Message) (clients : List RoomClient) :
    List RoomClient × List RoomClient :=
  (clients.filterMap
     (fun c => if hasSpace c then some { c with queue := c.queue ++ [msg] } else none),
   clients.filter (fun c => !hasSpace c))

/-!
## Lock traces of cleanup's room-removal phase (client.go 577-588, room.go 53-62)

Two locks are in play: the room's `clientsMutex` (taken in read mode by
`removeClient`) and the client's `roomsMutex` (taken in write mode by both
`cleanup` and `removeClient`).  We record the acquisition/release events
each function performs, in program order, and check two properties of the
combined trace: whether the client's `roomsMutex` is ever acquired while
already held by the same goroutine (Go's `sync.RWMutex` write lock is not
reentrant, so this is a self-deadlock), and whether a room lock is ever
acquired while the client's lock is held (the reverse of the documented
Room to Client.rooms order).
-/

/-- A lock acquisition or release event.  Room events refer to the
`clientsMutex` of the room being removed from; client events to the one
client's `roomsMutex`. -/
inductive LockEvent where
  | roomRLock
  | roomRUnlock
  | clientLock
  | clientUnlock
deriving DecidableEq, Repr

/-- Lock events of one `Room.removeClient` call (room.go lines 53-62):
`r.clientsMutex.RLock()`, then `client.roomsMutex.Lock()`; the two deferred
unlocks run last-in-first-out when the function returns. -/
def removeClientLockTrace : List LockEvent :=
  [.roomRLock, .clientLock, .clientUnlock, .roomRUnlock]

/-- Lock events of the room-removal phase of `Client.cleanup` (client.go
lines 577-588) for a client that is a member of `n` rooms:
`c.roomsMutex.Lock()`, then for each room the full `removeClient` call,
then `c.roomsMutex.Unlock()` after the map is cleared. -/
def cleanupLockTrace (n : Nat) : List LockEvent :=
  .clientLock :: (List.replicate n removeClientLockTrace).flatten ++ [.clientUnlock]

/-- Scans a trace with the current held/not-held status of the client's
`roomsMutex`; true iff some `clientLock` acquisition happens while the lock
is already held (a self-deadlock for a non-reentrant write lock). -/
def clientLockReacquired : List LockEvent → Bool → Bool
  | [], _ => false
  | .clientLock :: rest, held => held || clientLockReacquired rest true
  | .clientUnlock :: rest, _ => clientLockReacquired rest false
  | _ :: rest, held => clientLockReacquired rest held

/-- True iff some room-lock acquisition happens while the client's
`roomsMutex` is held: the reverse of the documented Room to Client.rooms
lock order. -/
def roomLockAfterClientLock : List LockEvent → Bool → Bool
  | [], _ => false
  | .roomRLock :: rest, held => held || roomLockAfterClientLock rest held
  | .clientLock :: rest, _ => roomLockAfterClientLock rest true
  | .clientUnlock :: rest, _ => roomLockAfterClientLock rest false
  | _ :: rest, held => roomLockAfterClientLock rest held

/-!
## Room initialization and the membership oracle (client.go 121-145)
-/

/-- One row of the `chats_users` join table (pkg/database). -/
structure ChatsUsers where
  chatID : String
  userID : String
deriving DecidableEq, Repr

/-- The query `hub.db.Find(&chats).Where("user_id = ?", c.payload.UserID)`
(client.go line 124).  GORM's `Find` is a finisher: it builds and executes
the SELECT at the point of the call, using only the conditions chained
before it — here none, so every row of `chats_users` is retrieved.  The
`Where` chained after `Find` merely adds a condition to the already
executed statement and affects nothing; its argument is dead.  The `Error`
field read afterwards carries the query's error, modelled as absent. -/
def findChatsUsersThenWhere (table : List ChatsUsers) (_userID : String) :
    List ChatsUsers :=
  table

/-- Method `Client.initializeRooms` (client.go lines 121-145): run the
query above, then for each retrieved row add the client to the room named
by `chat.ChatID` (reusing the hub's room when it exists, creating one
otherwise — either way `addClient` keys the client's rooms map by the room
id).  The value is the key set of the client's rooms map afterwards: the
chat ids of the retrieved rows, deduplicated. -/
def initializeRooms (table : List ChatsUsers) (userID : String) : List String :=
  ((findChatsUsersThenWhere table userID).map (fun r => r.chatID)).dedup

/-- Modelled from the spec: the membership oracle, one read at connect time
equivalent to SELECT chat_id FROM chats_users WHERE user_id = ?. -/
def membershipOracle (table : List ChatsUsers) (userID : String) : List String :=
  (table.filter (fun r => r.userID == userID)).map (fun r => r.chatID)

/-!
## Inbound frame handling (client.go 391-458)
-/

/-- The two error categories `handleMessage` can return: the wrapped
`ErrRoomAccess` when writing the Access Denied frame itself failed, and the
wrapped publish error when the bus publish failed. -/
inductive HandleErr where
  | roomAccess
  | publishFailed
deriving DecidableEq, Repr

/-- The externally visible effects of one `handleMessage` call: the error
frame written to this client (if any), the successful bus publication as a
(channel, payload) pair (if any), the deadline in seconds of the publish
context when a publish was attempted, and the function's return value
(`none` models a nil error: the read loop continues; `some` makes
`readMessages` record the error and terminate). -/
structure HandleEffects where
  sentError : Option ErrorMessage
  published : Option (String × Message)
  publishDeadlineSecs : Option Nat
  result : Option HandleErr
deriving DecidableEq, Repr

/-- The frame built by the access-denied branch (client.go lines 400-401). -/
def accessDeniedFrame (roomID : String) : ErrorMessage :=
  { error := "Access Denied"
    details := "You do not have permission to access room " ++ roomID ++
      " or it does not exist" }

/-- Method `Client.handleMessage` (client.go lines 391-435).  Inputs: the
key set of `c.rooms` (every key equals the id of the room it maps to, the
only writes being `client.rooms[r.id] = r` in `addClient`), the client's
user id, the decoded frame, and two environment outcomes: whether the
`sendErrorMessage` write succeeds (connection present, deadline and write
ok; client.go 437-458) and whether the bus publish succeeds.  When the room
key is absent the Access Denied frame is written and nil is returned (the
connection stays open); when that write itself fails, the wrapped
`ErrRoomAccess` is returned.  When the key is present, the outbound message
is the inbound fields plus the sender id, serialized and published to the
channel room-<id> under a 2-second context; a publish failure is returned
as an error. -/
def handleMessage (rooms : List String) (userID : String) (msg : ClientMessage)
    (errorWriteOk : Bool) (publishOk : Bool) : HandleEffects :=
  if msg.room ∈ rooms then
    let out : Message :=
      { room := msg.room, data := msg.data, iv := msg.iv, senderID := userID }
    if publishOk then
      { sentError := none
        published := some ("room-" ++ msg.room, out)
        publishDeadlineSecs := some 2
        result := none }
    else
      { sentError := none
        published := none
        publishDeadlineSecs := some 2
        result := some .publishFailed }
  else
    if errorWriteOk then
      { sentError := some (accessDeniedFrame msg.room)
        published := none
        publishDeadlineSecs := none
        result := none }
    else
      { sentError := none
        published := none
        publishDeadlineSecs := none
        result := some .roomAccess }

/-- The read loop's reaction to `handleMessage` (client.go lines 383-386):
a non-nil return sets `readErr` and returns from `readMessages`, tearing
the connection down; a nil return continues the loop. -/
def readerTerminatesOn (e : HandleEffects) : Bool := e.result.isSome

/-!
## Hub graceful shutdown (src/unnamed/part_002, lines 92-184)
-/

/-- The hub state `GracefulShutdown` reads and writes: the
`isShuttingDown` atomic flag. -/
structure HubState where
  isShuttingDown : Bool
deriving DecidableEq, Repr

/-- The only error `GracefulShutdown` can return: the timeout context's
error (context.DeadlineExceeded). -/
inductive ShutdownErr where
  | deadlineExceeded
deriving DecidableEq, Repr

/-- Method `hub.GracefulShutdown` (part_002 lines 92-184).
`isShuttingDown.Swap(true)` returning true means a shutdown already ran:
return nil at once.  Otherwise the four shutdown phases run in a goroutine
that closes `done` when finished, and the caller selects between `done`
and the timeout context.  The parameter `completedBeforeTimeout` records
which of the two fired first: when the shutdown goroutine finished first
the call returns nil, when the timeout expired first it returns
`ctx.Err()`. -/
def GracefulShutdown (h : HubState) (completedBeforeTimeout : Bool) :
    HubState × Option ShutdownErr :=
  if h.isShuttingDown then
    (h, none)
  else
    ({ isShuttingDown := true },
     if completedBeforeTimeout then none else some .deadlineExceeded)

/-!
## Theorems
-/

/-- Claim C1 (code bug): the claim says the Client's room set after
initialization is exactly the membership oracle's result for its user id.
In the source the user filter is chained after GORM's `Find` and never
executes, so the client joins every chat in the table.  Failing input: the
table with rows (chatA, u1) and (chatB, u2) and a client with user id u1 —
the code yields both chat ids while the oracle returns only chatA. -/
theorem initializeRooms_ignores_user_filter :
    initializeRooms
        [{ chatID := "chatA", userID := "u1" }, { chatID := "chatB", userID := "u2" }]
        "u1" = ["chatA", "chatB"] ∧
    membershipOracle
        [{ chatID := "chatA", userID := "u1" }, { chatID := "chatB", userID := "u2" }]
        "u1" = ["chatA"] ∧
    initializeRooms
        [{ chatID := "chatA", userID := "u1" }, { chatID := "chatB", userID := "u2" }]
        "u1" ≠
      membershipOracle
        [{ chatID := "chatA", userID := "u1" }, { chatID := "chatB", userID := "u2" }]
        "u1" := by
  decide

/-- Claim C2 (code bug): the claim says that after cleanup returns the
state equals disconnected.  In the source, cleanup first moves the state to
disconnecting, and its final `setState(stateDisconnected)` is refused by
the guard in `setState` (which blocks every transition once the state is
disconnecting), so the terminal state is disconnecting.  The send queue is
closed and cleanup is idempotent, as claimed. -/
theorem cleanup_leaves_state_disconnecting :
    (cleanup newClientState).state = ConnState.disconnecting ∧
    ¬ (cleanup newClientState).state = ConnState.disconnected ∧
    (cleanup newClientState).send.closed = true ∧
    cleanup (cleanup newClientState) = cleanup newClientState := by
  decide

/-- Claim C3 (code bug): the claim says cleanup snapshots and drops the
room set, releases the client's room-set lock, and only then calls
`Room.removeClient`, so the client's lock is never held where
`removeClient` acquires it.  In the source, cleanup holds `c.roomsMutex`
across the whole removal loop, and `removeClient` acquires first the room's
lock (the reverse of the Room-before-Client.rooms order) and then
`c.roomsMutex` again — a self-deadlock on a non-reentrant write lock.  The
trace for a client in one room exhibits both violations. -/
theorem cleanup_reacquires_client_lock :
    clientLockReacquired (cleanupLockTrace 1) false = true ∧
    roomLockAfterClientLock (cleanupLockTrace 1) false = true := by
  decide

set_option maxRecDepth 8192 in
/-- Claim C4, counterexample: a broadcast to a room holding the client S
(send queue full: 256 buffered messages) and the client B (empty queue)
evicts S from the room's client map and enqueues the message for B, but S
is returned by the eviction path exactly as it was — its cleanup has not
run, contradicting the claim's "its connection is cleaned up". -/
theorem broadcast_evicts_without_cleanup_cex :
    (broadcast { room := "r1", data := "hello", iv := "00", senderID := "P" }
        [{ key := "S",
           queue := List.replicate sendQueueCap
             { room := "r1", data := "d", iv := "i", senderID := "P" },
           cleanedUp := false },
         { key := "B", queue := [], cleanedUp := false }]).1 =
      [{ key := "B",
         queue := [{ room := "r1", data := "hello", iv := "00", senderID := "P" }],
         cleanedUp := false }] ∧
    (broadcast { room := "r1", data := "hello", iv := "00", senderID := "P" }
        [{ key := "S",
           queue := List.replicate sendQueueCap
             { room := "r1", data := "d", iv := "i", senderID := "P" },
           cleanedUp := false },
         { key := "B", queue := [], cleanedUp := false }]).2 =
      [{ key := "S",
         queue := List.replicate sendQueueCap
           { room := "r1", data := "d", iv := "i", senderID := "P" },
         cleanedUp := false }] ∧
    ∀ c ∈ (broadcast { room := "r1", data := "hello", iv := "00", senderID := "P" }
        [{ key := "S",
           queue := List.replicate sendQueueCap
             { room := "r1", data := "d", iv := "i", senderID := "P" },
           cleanedUp := false },
         { key := "B", queue := [], cleanedUp := false }]).2,
      c.cleanedUp = false := by
  refine ⟨rfl, rfl, ?_⟩
  decide

/-- Claim C4, amended: for every message handed to `Room.broadcast`, a
non-blocking enqueue is attempted for every client in the room's client set
at the moment the read lock was acquired; a client whose send queue is full
is removed from the Room within that broadcast call and handed, unchanged,
to `removeClient` — its connection is not cleaned up by broadcast — while
every client with queue space has the message enqueued. -/
theorem broadcast_spec (msg : Message) (clients : List RoomClient) :
    (∀ c ∈ clients, hasSpace c = true →
        { c with queue := c.queue ++ [msg] } ∈ (broadcast msg clients).1) ∧
    (∀ c ∈ clients, hasSpace c = false → c ∈ (broadcast msg clients).2) ∧
    (∀ c ∈ (broadcast msg clients).2, c ∈ clients ∧ hasSpace c = false) := by
  refine ⟨?_, ?_, ?_⟩
  · intro c hc hs
    exact List.mem_filterMap.mpr ⟨c, hc, by simp [hs]⟩
  · intro c hc hs
    exact List.mem_filter.mpr ⟨hc, by simp [hs]⟩
  · intro c hc
    have h := List.mem_filter.mp hc
    exact ⟨h.1, by simpa using h.2⟩

/-- Witness for the amended claim C4 at a concrete input: a client with an
empty queue has the broadcast message enqueued. -/
theorem broadcast_spec_witness :
    ({ key := "B",
       queue := [{ room := "r1", data := "hello", iv := "00", senderID := "A" }],
       cleanedUp := false } : RoomClient) ∈
      (broadcast { room := "r1", data := "hello", iv := "00", senderID := "A" }
        [{ key := "B", queue := [], cleanedUp := false }]).1 :=
  (broadcast_spec { room := "r1", data := "hello", iv := "00", senderID := "A" }
      [{ key := "B", queue := [], cleanedUp := false }]).1
    { key := "B", queue := [], cleanedUp := false } (by simp) (by decide)

/-- Claim C5 (confirmed): for every decoded inbound frame whose room is not
in the Client's room set, and whose Access Denied write succeeds, the
client is sent the error frame with the exact Access Denied text, nothing
is published to the bus, and handleMessage returns nil so the reader does
not terminate. -/
theorem handleMessage_unknown_room_sends_error
    (rooms : List String) (userID : String) (msg : ClientMessage) (publishOk : Bool)
    (hnot : msg.room ∉ rooms) :
    handleMessage rooms userID msg true publishOk =
      { sentError := some (accessDeniedFrame msg.room)
        published := none
        publishDeadlineSecs := none
        result := none } ∧
    readerTerminatesOn (handleMessage rooms userID msg true publishOk) = false := by
  simp [handleMessage, hnot, readerTerminatesOn]

/-- Witness for claim C5: a client whose room set is r1 sends to r2 and
receives the exact Access Denied frame. -/
theorem handleMessage_unknown_room_sends_error_witness :
    ("r2" ∉ ["r1"]) ∧
    handleMessage ["r1"] "C" { room := "r2", data := "d", iv := "00" } true true =
      { sentError := some
          { error := "Access Denied"
            details :=
              "You do not have permission to access room r2 or it does not exist" }
        published := none
        publishDeadlineSecs := none
        result := none } :=
  ⟨by decide,
    (handleMessage_unknown_room_sends_error ["r1"] "C"
      { room := "r2", data := "d", iv := "00" } true (by decide)).1⟩

/-- Claim C6, counterexample: on the room-client state with client set
containing c1, count one and the client's room set containing r1, one
removeClient yields count zero, a second yields count minus one — the
atomic client count after the second call differs from after the first,
refuting the claim that the two states are the same. -/
theorem removeClient_double_call_cex :
    (removeClient "r1" "c1"
        { roomClients := ["c1"], clientCount := 1, shutdownStarted := false,
          clientRooms := ["r1"] }).clientCount = 0 ∧
    (removeClient "r1" "c1" (removeClient "r1" "c1"
        { roomClients := ["c1"], clientCount := 1, shutdownStarted := false,
          clientRooms := ["r1"] })).clientCount = -1 ∧
    removeClient "r1" "c1" (removeClient "r1" "c1"
        { roomClients := ["c1"], clientCount := 1, shutdownStarted := false,
          clientRooms := ["r1"] }) ≠
      removeClient "r1" "c1"
        { roomClients := ["c1"], clientCount := 1, shutdownStarted := false,
          clientRooms := ["r1"] } := by
  decide

/-- Claim C6, amended: a second `removeClient` call on the same (room,
client) pair leaves the room's client set and the client's room set exactly
as after the first call, but decrements the atomic client count once more,
so the count after the second call is one below the count after the first. -/
theorem removeClient_second_call_effect
    (roomID clientKey : String) (s : RoomClientState) :
    (removeClient roomID clientKey (removeClient roomID clientKey s)).roomClients =
      (removeClient roomID clientKey s).roomClients ∧
    (removeClient roomID clientKey (removeClient roomID clientKey s)).clientRooms =
      (removeClient roomID clientKey s).clientRooms ∧
    (removeClient roomID clientKey (removeClient roomID clientKey s)).clientCount =
      (removeClient roomID clientKey s).clientCount - 1 := by
  refine ⟨?_, ?_, rfl⟩ <;> simp [removeClient, List.filter_filter]

/-- Claim C7, counterexample: on a room whose shutdown-started flag is set,
`addClient` still inserts the client c1 and changes the state, refuting
the claim that it is a no-op that returns without inserting. -/
theorem addClient_ignores_shutdown_cex :
    addClient "r1" "c1"
        { roomClients := [], clientCount := 0, shutdownStarted := true,
          clientRooms := [] } ≠
      { roomClients := [], clientCount := 0, shutdownStarted := true,
        clientRooms := [] } ∧
    "c1" ∈ (addClient "r1" "c1"
        { roomClients := [], clientCount := 0, shutdownStarted := true,
          clientRooms := [] }).roomClients := by
  decide

/-- Claim C7, amended: `addClient` never consults the shutdown-started
flag: even when the flag is set it inserts the client into the room's
client set and increments the atomic count, so a Room whose shutdown flag
is set can still gain new clients. -/
theorem addClient_inserts_during_shutdown
    (roomID clientKey : String) (s : RoomClientState)
    (hshut : s.shutdownStarted = true) :
    clientKey ∈ (addClient roomID clientKey s).roomClients ∧
    (addClient roomID clientKey s).clientCount = s.clientCount + 1 ∧
    (addClient roomID clientKey s).shutdownStarted = true := by
  refine ⟨?_, rfl, hshut⟩
  by_cases h : clientKey ∈ s.roomClients <;> simp [addClient, h]

/-- Witness for the amended claim C7 at a concrete input: a shut-down room
gains the client c1. -/
theorem addClient_inserts_during_shutdown_witness :
    (({ roomClients := [], clientCount := 0, shutdownStarted := true,
        clientRooms := [] } : RoomClientState).shutdownStarted = true) ∧
    "c1" ∈ (addClient "r1" "c1"
        { roomClients := [], clientCount := 0, shutdownStarted := true,
          clientRooms := [] }).roomClients :=
  ⟨rfl, (addClient_inserts_during_shutdown "r1" "c1" _ rfl).1⟩

/-- Claim C8 (confirmed): for every inbound frame whose room is in the
Client's room set, handleMessage publishes to channel room-<room_id> the
payload made of the inbound room, data and iv unchanged plus sender_id
equal to the Client's user id, under a 2-second publish deadline; when the
publish fails, handleMessage returns an error and the reader terminates. -/
theorem handleMessage_known_room_publishes
    (rooms : List String) (userID : String) (msg : ClientMessage)
    (errorWriteOk : Bool) (hmem : msg.room ∈ rooms) :
    handleMessage rooms userID msg errorWriteOk true =
      { sentError := none
        published := some ("room-" ++ msg.room,
          { room := msg.room, data := msg.data, iv := msg.iv, senderID := userID })
        publishDeadlineSecs := some 2
        result := none } ∧
    (handleMessage rooms userID msg errorWriteOk false).result =
      some HandleErr.publishFailed ∧
    readerTerminatesOn (handleMessage rooms userID msg errorWriteOk false) = true := by
  simp [handleMessage, hmem, readerTerminatesOn]

/-- Witness for claim C8: a member of r1 sends to r1; the message is
published to room-r1 with the sender id appended and the fields unchanged. -/
theorem handleMessage_known_room_publishes_witness :
    ("r1" ∈ ["r1"]) ∧
    (handleMessage ["r1"] "A" { room := "r1", data := "hello", iv := "00" } true true =
      { sentError := none
        published := some ("room-r1",
          { room := "r1", data := "hello", iv := "00", senderID := "A" })
        publishDeadlineSecs := some 2
        result := none } ∧
    (handleMessage ["r1"] "A" { room := "r1", data := "hello", iv := "00" }
        true false).result = some HandleErr.publishFailed ∧
    readerTerminatesOn (handleMessage ["r1"] "A"
        { room := "r1", data := "hello", iv := "00" } true false) = true) :=
  ⟨by decide,
    handleMessage_known_room_publishes ["r1"] "A"
      { room := "r1", data := "hello", iv := "00" } true (by decide)⟩

/-- Claim C9 (confirmed): on a hub that has not started shutting down, the
first `GracefulShutdown` call returns the context error exactly when the
timeout expired before the shutdown completed, and any call on the
resulting state returns nil and leaves the state fixed, so every call after
the first returns nil regardless of outcome. -/
theorem GracefulShutdown_idempotent
    (h : HubState) (b1 b2 : Bool) (hfresh : h.isShuttingDown = false) :
    ((GracefulShutdown h b1).2 = some ShutdownErr.deadlineExceeded ↔ b1 = false) ∧
    (GracefulShutdown (GracefulShutdown h b1).1 b2).2 = none ∧
    (GracefulShutdown (GracefulShutdown h b1).1 b2).1 = (GracefulShutdown h b1).1 := by
  cases b1 <;> simp [GracefulShutdown, hfresh]

/-- Witness for claim C9 at a concrete input: a fresh hub, a first call
that times out (returns the deadline error) and a second call that returns
nil. -/
theorem GracefulShutdown_idempotent_witness :
    ((GracefulShutdown { isShuttingDown := false } false).2 =
        some ShutdownErr.deadlineExceeded ↔ false = false) ∧
    (GracefulShutdown (GracefulShutdown { isShuttingDown := false } false).1 true).2 =
      none ∧
    (GracefulShutdown (GracefulShutdown { isShuttingDown := false } false).1 true).1 =
      (GracefulShutdown { isShuttingDown := false } false).1 :=
  GracefulShutdown_idempotent { isShuttingDown := false } false true rfl

/-- Claim C10 (confirmed): when the send queue is non-empty and open as
cleanup runs, the queue-closing step receives and discards the first
buffered message before closing the channel: after cleanup the queue holds
only the remaining messages and is closed, so that one already-enqueued
outbound message is dropped. -/
theorem cleanup_drops_buffered_message
    (c : ClientState) (m : Message) (rest : List Message)
    (hbuf : c.send.buffer = m :: rest) (hopen : c.send.closed = false)
    (honce : c.cleanupDone = false) :
    (cleanup c).send.buffer = rest ∧ (cleanup c).send.closed = true := by
  have hsend : c.send = { buffer := m :: rest, closed := false } := by
    rw [← hbuf, ← hopen]
  simp [cleanup, honce, cleanupBody, hsend, closeSend]

/-- Witness for claim C10 at a concrete input: a fresh client whose queue
buffers one message loses it — after cleanup the buffer is empty and the
channel closed. -/
theorem cleanup_drops_buffered_message_witness :
    (cleanup { newClientState with send :=
        { buffer := [{ room := "r1", data := "hello", iv := "00", senderID := "A" }],
          closed := false } }).send.buffer = [] ∧
    (cleanup { newClientState with send :=
        { buffer := [{ room := "r1", data := "hello", iv := "00", senderID := "A" }],
          closed := false } }).send.closed = true :=
  cleanup_drops_buffered_message _
    { room := "r1", data := "hello", iv := "00", senderID := "A" } [] rfl rfl rfl

end EasyFlow
